import Mathlib

/-!
Verification of `src/openapi/helpers/types.ts` from ts-openapi: a facade of
factory functions, one per data shape, each returning a Joi validator chain
configured from an optional parameters record.

The embedding models:
  * `JsValue` — runtime JavaScript values as far as the guards in the source
    distinguish them (`typeof x === "number"` / `"boolean"` checks and
    truthiness checks `if (x)`).
  * `Params` — the JS configuration object passed to a factory.  Every field
    is an `Option` (`none` = the property is absent / `undefined`); field
    types follow the TypeScript parameter types.  A single record covers all
    shapes, as at runtime every factory simply reads the properties it cares
    about from whatever object it received.
  * `Schema` — the state of a Joi builder chain: base kind, description,
    presence (required/optional/default), null-acceptance, lower/upper bound
    (Joi `min`/`max` are single rules, so a later call replaces an earlier
    one), default value, example value, format rules, meta tags, allowed
    values (`valid`), encoding, `integer()` and `strict()` flags, and the
    stored object-key map / array-item schema.  The chaining methods of the
    external Joi API are modelled as pure record updates, following the
    spec's description of the consumed API (section 6): chainable
    configuration methods returning a fresh builder.
  * One Lean definition per factory of the `Types` table, translated
    line-by-line from the source.  Each `if` block of the source is one
    `apply*` step; the distinct guard styles of the source (truthiness
    vs. `typeof` checks, and Number's `required`-only-when-true) are
    distinct step functions.

`π` is the type of the opaque schema values stored by `Object` (`keys`) and
`Array` (`items`); the facade never inspects them, so the embedding is
parametric in it.
-/

/-- A JavaScript runtime value, as far as the guards in the source
distinguish values: booleans, numbers, strings, `null`, and opaque object
references (identified by a tag; always truthy). -/
inductive JsValue where
  | null
  | bool (b : Bool)
  | num (n : Int)
  | str (s : String)
  | obj (tag : Nat)
  deriving DecidableEq, Repr

/-- JavaScript truthiness: `false`, `0`, the empty string and `null` are
falsy; every other modelled value is truthy. -/
def JsValue.truthy : JsValue → Bool
  | .null => false
  | .bool b => b
  | .num n => n != 0
  | .str s => s != ""
  | .obj _ => true

/-- Joi presence flag: the underlying default, or explicitly `required()`,
or explicitly `optional()`. -/
inductive Presence where
  | dflt
  | required
  | optional
  deriving DecidableEq, Repr

/-- Base kind of a Joi chain: which root constructor started it. -/
inductive BaseKind where
  | string
  | binary
  | number
  | boolean
  | object
  | array
  deriving DecidableEq, Repr

/-- A format-validation rule attached to a string chain. -/
inductive StrFormat where
  | email
  | uri
  | hostname
  | ip (versions : List String)
  | uuid (version : String)
  | isoDate
  deriving DecidableEq, Repr

/-- The observable state of a Joi builder chain (the Schema Node of the
spec).  `π` is the type of the opaque stored key-map / item schema. -/
structure Schema (π : Type) where
  kind : BaseKind
  descr : Option String := none
  presence : Presence := Presence.dflt
  allowNull : Bool := false
  lowerBound : Option Int := none
  upperBound : Option Int := none
  defaultVal : Option JsValue := none
  exampleVal : Option JsValue := none
  formats : List StrFormat := []
  metas : List String := []
  validVals : Option (List JsValue) := none
  enc : Option String := none
  integerFlag : Bool := false
  strictFlag : Bool := false
  keysMap : Option π := none
  itemsOf : Option π := none
  deriving DecidableEq, Repr

variable {π : Type}

/-! ### The consumed Joi construction API (spec section 6)

Chainable configuration methods, modelled as record updates on `Schema`. -/

def Joi.string : Schema π := { kind := BaseKind.string }

def Joi.binary : Schema π := { kind := BaseKind.binary }

def Joi.number : Schema π := { kind := BaseKind.number }

def Joi.boolean : Schema π := { kind := BaseKind.boolean }

def Schema.description (j : Schema π) (d : String) : Schema π :=
  { j with descr := some d }

def Schema.required (j : Schema π) : Schema π :=
  { j with presence := Presence.required }

def Schema.optional (j : Schema π) : Schema π :=
  { j with presence := Presence.optional }

/-- Joi `allow(v)`: the source only ever calls `allow(null)`, which marks
the chain as additionally accepting `null`. -/
def Schema.allow (j : Schema π) (v : JsValue) : Schema π :=
  { j with allowNull := j.allowNull || (v == JsValue.null) }

/-- Joi `min(n)`: `min` is a single rule, so a later call replaces an
earlier one. -/
def Schema.min (j : Schema π) (n : Int) : Schema π :=
  { j with lowerBound := some n }

/-- Joi `max(n)`: single rule, later call replaces an earlier one. -/
def Schema.max (j : Schema π) (n : Int) : Schema π :=
  { j with upperBound := some n }

def Schema.default (j : Schema π) (v : JsValue) : Schema π :=
  { j with defaultVal := some v }

def Schema.example (j : Schema π) (v : JsValue) : Schema π :=
  { j with exampleVal := some v }

def Schema.email (j : Schema π) : Schema π :=
  { j with formats := j.formats ++ [StrFormat.email] }

def Schema.uri (j : Schema π) : Schema π :=
  { j with formats := j.formats ++ [StrFormat.uri] }

def Schema.hostname (j : Schema π) : Schema π :=
  { j with formats := j.formats ++ [StrFormat.hostname] }

def Schema.ip (j : Schema π) (versions : List String) : Schema π :=
  { j with formats := j.formats ++ [StrFormat.ip versions] }

def Schema.uuid (j : Schema π) (version : String) : Schema π :=
  { j with formats := j.formats ++ [StrFormat.uuid version] }

def Schema.isoDate (j : Schema π) : Schema π :=
  { j with formats := j.formats ++ [StrFormat.isoDate] }

/-- Joi `meta({format: s})`, modelled as appending the format tag. -/
def Schema.meta (j : Schema π) (tag : String) : Schema π :=
  { j with metas := j.metas ++ [tag] }

/-- Joi `valid(...values)`: restricts the allowed values to the given set. -/
def Schema.valid (j : Schema π) (vs : List JsValue) : Schema π :=
  { j with validVals := some vs }

def Schema.encoding (j : Schema π) (e : String) : Schema π :=
  { j with enc := some e }

def Schema.integer (j : Schema π) : Schema π :=
  { j with integerFlag := true }

def Schema.strict (j : Schema π) : Schema π :=
  { j with strictFlag := true }

/-- Error type of a factory call that throws. -/
abbrev Err := String

/-- Modelled from the spec: `Joi.object().keys(properties)`.  Per section 7
of the spec, the underlying validator construction API rejects a malformed
configuration whose mandatory shape-defining field (`properties`) is
absent; with the map present the chain stores it verbatim. -/
def joiObjectKeys (m : Option π) : Except Err (Schema π) :=
  match m with
  | none => Except.error "ObjectSchemaRequired"
  | some mp => Except.ok { kind := BaseKind.object, keysMap := some mp }

/-- Modelled from the spec: `Joi.array().items(arrayType)`.  Per section 7
of the spec, the construction API rejects an absent mandatory element
schema (`arrayType`); with it present the chain stores it verbatim. -/
def joiArrayItems (t : Option π) : Except Err (Schema π) :=
  match t with
  | none => Except.error "ArrayItemSchemaRequired"
  | some ty => Except.ok { kind := BaseKind.array, itemsOf := some ty }

/-- Modelled from the spec: whether the downstream validation engine's
length check admits a value of length `n` against the node's bounds. -/
def Schema.lengthAdmits (j : Schema π) (n : Int) : Bool :=
  (match j.lowerBound with
   | some lo => decide (lo ≤ n)
   | none => true) &&
  (match j.upperBound with
   | some hi => decide (n ≤ hi)
   | none => true)

/-! ### The configuration record -/

/-- The JS configuration object passed to a factory.  `none` = the property
is absent (or `undefined`).  Field types follow the TypeScript parameter
types; `default` / `example` are kept as raw `JsValue`s because several
guards in the source test their runtime type or truthiness. -/
structure Params (π : Type) where
  description : Option String := none
  required : Option Bool := none
  nullable : Option Bool := none
  minLength : Option Int := none
  maxLength : Option Int := none
  minValue : Option Int := none
  maxValue : Option Int := none
  default : Option JsValue := none
  exampleV : Option JsValue := none
  values : Option (List JsValue) := none
  properties : Option π := none
  arrayType : Option π := none
  deriving DecidableEq, Repr

/-! ### The option-application steps

One step per `if` block of the source, named by the guard it translates. -/

/-- `if (description) joiType = joiType.description(description)` —
truthiness guard: the empty string is falsy. -/
def applyDescription (j : Schema π) (d : Option String) : Schema π :=
  match d with
  | some s => if s = "" then j else j.description s
  | none => j

/-- `if (typeof required === "boolean") joiType = required ?
joiType.required() : joiType.optional()`. -/
def applyRequired (j : Schema π) (r : Option Bool) : Schema π :=
  match r with
  | some true => j.required
  | some false => j.optional
  | none => j

/-- `if (typeof required === "boolean" && required) joiType =
joiType.required()` — the Number-family variant: an explicit `false` is
ignored. -/
def applyRequiredOnlyTrue (j : Schema π) (r : Option Bool) : Schema π :=
  match r with
  | some true => j.required
  | some false => j
  | none => j

/-- `if (typeof nullable === "boolean" && nullable) joiType =
joiType.allow(null)`.  The Object/Array builders guard with plain
truthiness (`if (nullable)`), which coincides with this on boolean-typed
input. -/
def applyNullable (j : Schema π) (nl : Option Bool) : Schema π :=
  match nl with
  | some true => j.allow JsValue.null
  | some false => j
  | none => j

/-- `if (minLength) joiType = joiType.min(minLength)` — truthiness guard:
`0` is falsy. -/
def applyMin (j : Schema π) (m : Option Int) : Schema π :=
  match m with
  | some n => if n = 0 then j else j.min n
  | none => j

/-- `if (maxLength) joiType = joiType.max(maxLength)` — truthiness guard. -/
def applyMax (j : Schema π) (m : Option Int) : Schema π :=
  match m with
  | some n => if n = 0 then j else j.max n
  | none => j

/-- `if (typeof minValue === "number") joiType = joiType.min(minValue)` —
type guard: applied for every number, `0` and negatives included. -/
def applyMinNumber (j : Schema π) (m : Option Int) : Schema π :=
  match m with
  | some n => j.min n
  | none => j

/-- `if (typeof maxValue === "number") joiType = joiType.max(maxValue)`. -/
def applyMaxNumber (j : Schema π) (m : Option Int) : Schema π :=
  match m with
  | some n => j.max n
  | none => j

/-- `if (parameters.default) joiType = joiType.default(parameters.default)`
— truthiness guard on the default value. -/
def applyDefaultTruthy (j : Schema π) (v : Option JsValue) : Schema π :=
  match v with
  | some dv => if dv.truthy then j.default dv else j
  | none => j

/-- `if (parameters.example) joiType = joiType.example(example)` —
truthiness guard on the example value. -/
def applyExampleTruthy (j : Schema π) (v : Option JsValue) : Schema π :=
  match v with
  | some ev => if ev.truthy then j.example ev else j
  | none => j

/-- `if (typeof parameters.default === "number") joiType =
joiType.default(parameters.default)` — type guard. -/
def applyDefaultNumber (j : Schema π) (v : Option JsValue) : Schema π :=
  match v with
  | some (JsValue.num n) => j.default (JsValue.num n)
  | some _ => j
  | none => j

/-- `if (typeof parameters.example === "number") joiType =
joiType.example(example)`. -/
def applyExampleNumber (j : Schema π) (v : Option JsValue) : Schema π :=
  match v with
  | some (JsValue.num n) => j.example (JsValue.num n)
  | some _ => j
  | none => j

/-- `if (typeof parameters.default === "boolean") joiType =
joiType.default(parameters.default)`. -/
def applyDefaultBoolean (j : Schema π) (v : Option JsValue) : Schema π :=
  match v with
  | some (JsValue.bool b) => j.default (JsValue.bool b)
  | some _ => j
  | none => j

/-- `if (typeof parameters.example === "boolean") joiType =
joiType.example(example)`. -/
def applyExampleBoolean (j : Schema π) (v : Option JsValue) : Schema π :=
  match v with
  | some (JsValue.bool b) => j.example (JsValue.bool b)
  | some _ => j
  | none => j

/-! ### Normal forms of the option-application steps

Each step is a single-field record update; these equations let projections
of a factory result reduce without case analysis on the untouched fields. -/

@[simp] theorem applyDescription_eq (j : Schema π) (d : Option String) :
    applyDescription j d =
      { j with descr := match d with
                        | some s => if s = "" then j.descr else some s
                        | none => j.descr } := by
  cases d <;> simp [applyDescription, Schema.description]
  split <;> rfl

@[simp] theorem applyRequired_eq (j : Schema π) (r : Option Bool) :
    applyRequired j r =
      { j with presence := match r with
                           | some true => Presence.required
                           | some false => Presence.optional
                           | none => j.presence } := by
  rcases r with _ | _ | _ <;> rfl

@[simp] theorem applyRequiredOnlyTrue_eq (j : Schema π) (r : Option Bool) :
    applyRequiredOnlyTrue j r =
      { j with presence := match r with
                           | some true => Presence.required
                           | some false => j.presence
                           | none => j.presence } := by
  rcases r with _ | _ | _ <;> rfl

@[simp] theorem applyNullable_eq (j : Schema π) (nl : Option Bool) :
    applyNullable j nl =
      { j with allowNull := match nl with
                            | some true => true
                            | some false => j.allowNull
                            | none => j.allowNull } := by
  rcases nl with _ | _ | _ <;> simp [applyNullable, Schema.allow]

@[simp] theorem applyMin_eq (j : Schema π) (m : Option Int) :
    applyMin j m =
      { j with lowerBound := match m with
                             | some n => if n = 0 then j.lowerBound else some n
                             | none => j.lowerBound } := by
  cases m <;> simp [applyMin, Schema.min]
  split <;> rfl

@[simp] theorem applyMax_eq (j : Schema π) (m : Option Int) :
    applyMax j m =
      { j with upperBound := match m with
                             | some n => if n = 0 then j.upperBound else some n
                             | none => j.upperBound } := by
  cases m <;> simp [applyMax, Schema.max]
  split <;> rfl

@[simp] theorem applyMinNumber_eq (j : Schema π) (m : Option Int) :
    applyMinNumber j m =
      { j with lowerBound := match m with
                             | some n => some n
                             | none => j.lowerBound } := by
  cases m <;> rfl

@[simp] theorem applyMaxNumber_eq (j : Schema π) (m : Option Int) :
    applyMaxNumber j m =
      { j with upperBound := match m with
                             | some n => some n
                             | none => j.upperBound } := by
  cases m <;> rfl

@[simp] theorem applyDefaultTruthy_eq (j : Schema π) (v : Option JsValue) :
    applyDefaultTruthy j v =
      { j with defaultVal := match v with
                             | some dv => if dv.truthy then some dv else j.defaultVal
                             | none => j.defaultVal } := by
  cases v <;> simp [applyDefaultTruthy, Schema.default]
  split <;> rfl

@[simp] theorem applyExampleTruthy_eq (j : Schema π) (v : Option JsValue) :
    applyExampleTruthy j v =
      { j with exampleVal := match v with
                             | some ev => if ev.truthy then some ev else j.exampleVal
                             | none => j.exampleVal } := by
  cases v <;> simp [applyExampleTruthy, Schema.example]
  split <;> rfl

@[simp] theorem applyDefaultNumber_eq (j : Schema π) (v : Option JsValue) :
    applyDefaultNumber j v =
      { j with defaultVal := match v with
                             | some (JsValue.num n) => some (JsValue.num n)
                             | some _ => j.defaultVal
                             | none => j.defaultVal } := by
  rcases v with _ | v <;> try rfl
  cases v <;> rfl

@[simp] theorem applyExampleNumber_eq (j : Schema π) (v : Option JsValue) :
    applyExampleNumber j v =
      { j with exampleVal := match v with
                             | some (JsValue.num n) => some (JsValue.num n)
                             | some _ => j.exampleVal
                             | none => j.exampleVal } := by
  rcases v with _ | v <;> try rfl
  cases v <;> rfl

@[simp] theorem applyDefaultBoolean_eq (j : Schema π) (v : Option JsValue) :
    applyDefaultBoolean j v =
      { j with defaultVal := match v with
                             | some (JsValue.bool b) => some (JsValue.bool b)
                             | some _ => j.defaultVal
                             | none => j.defaultVal } := by
  rcases v with _ | v <;> try rfl
  cases v <;> rfl

@[simp] theorem applyExampleBoolean_eq (j : Schema π) (v : Option JsValue) :
    applyExampleBoolean j v =
      { j with exampleVal := match v with
                             | some (JsValue.bool b) => some (JsValue.bool b)
                             | some _ => j.exampleVal
                             | none => j.exampleVal } := by
  rcases v with _ | v <;> try rfl
  cases v <;> rfl

/-! ### The factory table (`Types`) -/

/-- `Types.String`: `Joi.string()` with description, required, nullable,
minLength, maxLength, default, example applied in source order. -/
def Types.String (parameters : Option (Params π)) : Schema π :=
  match parameters with
  | none => Joi.string
  | some p =>
    applyExampleTruthy
      (applyDefaultTruthy
        (applyMax
          (applyMin
            (applyNullable
              (applyRequired
                (applyDescription Joi.string p.description)
                p.required)
              p.nullable)
            p.minLength)
          p.maxLength)
        p.default)
      p.exampleV

/-- `Types.StringEnum`: `Types.String(parameters).valid(...parameters.values)`.
Reading `values` off an absent record, or spreading an absent `values`,
throws a `TypeError`. -/
def Types.StringEnum (parameters : Option (Params π)) : Except Err (Schema π) :=
  match parameters with
  | none => Except.error "TypeErrorReadValuesOfUndefined"
  | some p =>
    match p.values with
    | none => Except.error "TypeErrorSpreadUndefined"
    | some vs => Except.ok ((Types.String (some p)).valid vs)

/-- `Types.Email`: `Types.String(parameters).email()`. -/
def Types.Email (parameters : Option (Params π)) : Schema π :=
  (Types.String parameters).email

/-- `Types.Password`: `Types.String(parameters).meta({format: "password"})`. -/
def Types.Password (parameters : Option (Params π)) : Schema π :=
  (Types.String parameters).meta "password"

/-- `Types.Uuid`: `Types.String(parameters).uuid({version:
"uuidv4"}).meta({format: "uuid"}).min(36).max(36)`. -/
def Types.Uuid (parameters : Option (Params π)) : Schema π :=
  ((((Types.String parameters).uuid "uuidv4").meta "uuid").min 36).max 36

/-- `Types.Uri`: `Types.String(parameters).uri().meta({format: "uri"})`. -/
def Types.Uri (parameters : Option (Params π)) : Schema π :=
  ((Types.String parameters).uri).meta "uri"

/-- `Types.Hostname`: `Types.String(parameters).hostname().meta({format:
"hostname"})`. -/
def Types.Hostname (parameters : Option (Params π)) : Schema π :=
  ((Types.String parameters).hostname).meta "hostname"

/-- `Types.Ipv4`: `Types.String(parameters).ip({version:
["ipv4"]}).meta({format: "ipv4"}).min(7).max(15)`. -/
def Types.Ipv4 (parameters : Option (Params π)) : Schema π :=
  ((((Types.String parameters).ip ["ipv4"]).meta "ipv4").min 7).max 15

/-- `Types.Ipv6`: `Types.String(parameters).ip({version:
["ipv6"]}).meta({format: "ipv6"}).min(3).max(45)`. -/
def Types.Ipv6 (parameters : Option (Params π)) : Schema π :=
  ((((Types.String parameters).ip ["ipv6"]).meta "ipv6").min 3).max 45

/-- `Types.Binary`: `Joi.binary()` with the same option blocks, in the same
order, as `Types.String`. -/
def Types.Binary (parameters : Option (Params π)) : Schema π :=
  match parameters with
  | none => Joi.binary
  | some p =>
    applyExampleTruthy
      (applyDefaultTruthy
        (applyMax
          (applyMin
            (applyNullable
              (applyRequired
                (applyDescription Joi.binary p.description)
                p.required)
              p.nullable)
            p.minLength)
          p.maxLength)
        p.default)
      p.exampleV

/-- `Types.Byte`: `Types.Binary(parameters).encoding("base64")`. -/
def Types.Byte (parameters : Option (Params π)) : Schema π :=
  (Types.Binary parameters).encoding "base64"

/-- `Types.DateTime`: `Joi.string().isoDate().max(24)`, then only
description, required and nullable applied. -/
def Types.DateTime (parameters : Option (Params π)) : Schema π :=
  match parameters with
  | none => (Joi.string.isoDate).max 24
  | some p =>
    applyNullable
      (applyRequired
        (applyDescription ((Joi.string.isoDate).max 24) p.description)
        p.required)
      p.nullable

/-- `Types.Date`: `Types.DateTime(parameters).meta({format:
"date"}).min(10).max(10)`. -/
def Types.Date (parameters : Option (Params π)) : Schema π :=
  (((Types.DateTime parameters).meta "date").min 10).max 10

/-- `Types.Number`: `Joi.number()` with description, required (only when
`true`), nullable, minValue, maxValue, default, example — the numeric
fields guarded by `typeof === "number"` rather than truthiness. -/
def Types.Number (parameters : Option (Params π)) : Schema π :=
  match parameters with
  | none => Joi.number
  | some p =>
    applyExampleNumber
      (applyDefaultNumber
        (applyMaxNumber
          (applyMinNumber
            (applyNullable
              (applyRequiredOnlyTrue
                (applyDescription Joi.number p.description)
                p.required)
              p.nullable)
            p.minValue)
          p.maxValue)
        p.default)
      p.exampleV

/-- `Types.NumberEnum`:
`Types.Number(parameters).valid(...parameters.values)`. -/
def Types.NumberEnum (parameters : Option (Params π)) : Except Err (Schema π) :=
  match parameters with
  | none => Except.error "TypeErrorReadValuesOfUndefined"
  | some p =>
    match p.values with
    | none => Except.error "TypeErrorSpreadUndefined"
    | some vs => Except.ok ((Types.Number (some p)).valid vs)

/-- `Types.Integer`: `Types.Number(parameters).integer()`. -/
def Types.Integer (parameters : Option (Params π)) : Schema π :=
  (Types.Number parameters).integer

/-- `Types.IntegerEnum`:
`Types.Integer(parameters).valid(...parameters.values)`. -/
def Types.IntegerEnum (parameters : Option (Params π)) : Except Err (Schema π) :=
  match parameters with
  | none => Except.error "TypeErrorReadValuesOfUndefined"
  | some p =>
    match p.values with
    | none => Except.error "TypeErrorSpreadUndefined"
    | some vs => Except.ok ((Types.Integer (some p)).valid vs)

/-- `Types.Boolean`: `Joi.boolean().strict()` with description, required,
nullable, default, example — the latter two guarded by `typeof ===
"boolean"`. -/
def Types.Boolean (parameters : Option (Params π)) : Schema π :=
  match parameters with
  | none => Joi.boolean.strict
  | some p =>
    applyExampleBoolean
      (applyDefaultBoolean
        (applyNullable
          (applyRequired
            (applyDescription Joi.boolean.strict p.description)
            p.required)
          p.nullable)
        p.default)
      p.exampleV

/-- `Types.Object`: destructures its (non-optional) parameters record —
calling it without one throws — then `Joi.object().keys(properties)`
followed by description, required, nullable (plain truthiness guard),
default, example. -/
def Types.Object (parameters : Option (Params π)) : Except Err (Schema π) :=
  match parameters with
  | none => Except.error "TypeErrorDestructureUndefined"
  | some p =>
    match joiObjectKeys p.properties with
    | Except.error e => Except.error e
    | Except.ok j0 =>
      Except.ok
        (applyExampleTruthy
          (applyDefaultTruthy
            (applyNullable
              (applyRequired
                (applyDescription j0 p.description)
                p.required)
              p.nullable)
            p.default)
          p.exampleV)

/-- `Types.Array`: destructures its (non-optional) parameters record, then
`Joi.array().items(arrayType)` followed by description, required, nullable
(plain truthiness guard), default, example, minLength, maxLength — the
length bounds applied last and guarded by truthiness. -/
def Types.Array (parameters : Option (Params π)) : Except Err (Schema π) :=
  match parameters with
  | none => Except.error "TypeErrorDestructureUndefined"
  | some p =>
    match joiArrayItems p.arrayType with
    | Except.error e => Except.error e
    | Except.ok j0 =>
      Except.ok
        (applyMax
          (applyMin
            (applyExampleTruthy
              (applyDefaultTruthy
                (applyNullable
                  (applyRequired
                    (applyDescription j0 p.description)
                    p.required)
                  p.nullable)
                p.default)
              p.exampleV)
            p.minLength)
          p.maxLength)

/-! ### Claims -/

/-- Claim C2: for every input configuration (including one carrying
`minLength`/`maxLength`, which the trailing single-rule `min`/`max` calls
replace), the Uuid factory produces a node with length bounds exactly
36..36, the Ipv4 factory 7..15, and the Ipv6 factory 3..45. -/
theorem claim_C2_forced_length_bounds (parameters : Option (Params Unit)) :
    (Types.Uuid parameters).lowerBound = some 36 ∧
    (Types.Uuid parameters).upperBound = some 36 ∧
    (Types.Ipv4 parameters).lowerBound = some 7 ∧
    (Types.Ipv4 parameters).upperBound = some 15 ∧
    (Types.Ipv6 parameters).lowerBound = some 3 ∧
    (Types.Ipv6 parameters).upperBound = some 45 := by
  refine ⟨?_, ?_, ?_, ?_, ?_, ?_⟩ <;>
    simp [Types.Uuid, Types.Ipv4, Types.Ipv6, Schema.min, Schema.max,
      Schema.meta, Schema.uuid, Schema.ip]

/-- Claim C3: the DateTime factory always applies ISO-date format
validation and max length 24 (no lower bound), honors description (guarded
by truthiness: the empty string is dropped), required (three-way) and
nullable, and ignores `default`, `example`, `minLength` and `maxLength`
entirely: erasing them from any configuration leaves the node unchanged. -/
theorem claim_C3_datetime_frame (p : Params Unit) :
    (Types.DateTime (some p)).formats = [StrFormat.isoDate] ∧
    (Types.DateTime (some p)).upperBound = some 24 ∧
    (Types.DateTime (some p)).lowerBound = none ∧
    Types.DateTime (some p) =
      Types.DateTime (some { p with default := none, exampleV := none,
                                    minLength := none, maxLength := none }) ∧
    (∀ d : String,
      (Types.DateTime (some { p with description := some d })).descr =
        if d = "" then none else some d) ∧
    (Types.DateTime (some { p with required := some true })).presence =
      Presence.required ∧
    (Types.DateTime (some { p with required := some false })).presence =
      Presence.optional ∧
    (Types.DateTime (some { p with required := none })).presence =
      Presence.dflt ∧
    (Types.DateTime (some { p with nullable := some true })).allowNull = true ∧
    (Types.DateTime (some { p with nullable := some false })).allowNull = false ∧
    (Types.DateTime (some { p with nullable := none })).allowNull = false := by
  refine ⟨?_, ?_, ?_, rfl, ?_, ?_, ?_, ?_, ?_, ?_, ?_⟩ <;>
    simp [Types.DateTime, Schema.isoDate, Schema.max, Joi.string]

/-- Claim C4: the Date factory yields the DateTime node further tagged
"date" and forced to length bounds exactly 10..10, so the downstream
length check admits exactly length 10 (9 and 11 are rejected) while
DateTime alone admits lengths up to 24. -/
theorem claim_C4_date_bounds (parameters : Option (Params Unit)) :
    (Types.Date parameters).lowerBound = some 10 ∧
    (Types.Date parameters).upperBound = some 10 ∧
    (Types.Date parameters).metas = (Types.DateTime parameters).metas ++ ["date"] ∧
    (Types.Date parameters).formats = (Types.DateTime parameters).formats ∧
    (Types.Date parameters).lengthAdmits 10 = true ∧
    (Types.Date parameters).lengthAdmits 9 = false ∧
    (Types.Date parameters).lengthAdmits 11 = false ∧
    (Types.DateTime parameters).lengthAdmits 24 = true ∧
    (Types.DateTime parameters).lengthAdmits 11 = true ∧
    (Types.DateTime parameters).lengthAdmits 10 = true := by
  have hu : (Types.DateTime parameters).upperBound = some 24 := by
    cases parameters <;>
      simp [Types.DateTime, Schema.isoDate, Schema.max, Joi.string]
  have hl : (Types.DateTime parameters).lowerBound = none := by
    cases parameters <;>
      simp [Types.DateTime, Schema.isoDate, Schema.max, Joi.string]
  refine ⟨?_, ?_, ?_, ?_, ?_, ?_, ?_, ?_, ?_, ?_⟩ <;>
    simp [Types.Date, Schema.min, Schema.max, Schema.meta,
      Schema.lengthAdmits, hu, hl]

/-- Claim C8: for the Number and Integer factories a `minValue`/`maxValue`
bound is applied to the node exactly when the field is present as a number
— zero and negative values included, since the guard is a type check, not
a truthiness check. -/
theorem claim_C8_number_bounds_typeof (p : Params Unit) (n : Int) :
    (Types.Number (some { p with minValue := some n })).lowerBound = some n ∧
    (Types.Number (some { p with minValue := none })).lowerBound = none ∧
    (Types.Number (some { p with maxValue := some n })).upperBound = some n ∧
    (Types.Number (some { p with maxValue := none })).upperBound = none ∧
    (Types.Integer (some { p with minValue := some n })).lowerBound = some n ∧
    (Types.Integer (some { p with minValue := none })).lowerBound = none ∧
    (Types.Integer (some { p with maxValue := some n })).upperBound = some n ∧
    (Types.Integer (some { p with maxValue := none })).upperBound = none := by
  refine ⟨?_, ?_, ?_, ?_, ?_, ?_, ?_, ?_⟩ <;>
    simp [Types.Number, Types.Integer, Schema.integer, Joi.number]

/-- Claim C1: for every shape, starting from an arbitrary configuration,
passing `required: true`, `required: false` and omitting `required` yield
the three pairwise-distinct presence states `required`, `optional` and
`dflt` — except Number, NumberEnum, Integer and IntegerEnum, where the
node built with `required: false` is equal to the node built with
`required` omitted (while `required: true` still marks it required). -/
theorem claim_C1_required_trichotomy (p : Params Unit) (vs : List JsValue) :
    (Types.String (some { p with required := some true })).presence = Presence.required ∧
    (Types.String (some { p with required := some false })).presence = Presence.optional ∧
    (Types.String (some { p with required := none })).presence = Presence.dflt ∧
    (Types.Email (some { p with required := some true })).presence = Presence.required ∧
    (Types.Email (some { p with required := some false })).presence = Presence.optional ∧
    (Types.Email (some { p with required := none })).presence = Presence.dflt ∧
    (Types.Password (some { p with required := some true })).presence = Presence.required ∧
    (Types.Password (some { p with required := some false })).presence = Presence.optional ∧
    (Types.Password (some { p with required := none })).presence = Presence.dflt ∧
    (Types.Uuid (some { p with required := some true })).presence = Presence.required ∧
    (Types.Uuid (some { p with required := some false })).presence = Presence.optional ∧
    (Types.Uuid (some { p with required := none })).presence = Presence.dflt ∧
    (Types.Uri (some { p with required := some true })).presence = Presence.required ∧
    (Types.Uri (some { p with required := some false })).presence = Presence.optional ∧
    (Types.Uri (some { p with required := none })).presence = Presence.dflt ∧
    (Types.Hostname (some { p with required := some true })).presence = Presence.required ∧
    (Types.Hostname (some { p with required := some false })).presence = Presence.optional ∧
    (Types.Hostname (some { p with required := none })).presence = Presence.dflt ∧
    (Types.Ipv4 (some { p with required := some true })).presence = Presence.required ∧
    (Types.Ipv4 (some { p with required := some false })).presence = Presence.optional ∧
    (Types.Ipv4 (some { p with required := none })).presence = Presence.dflt ∧
    (Types.Ipv6 (some { p with required := some true })).presence = Presence.required ∧
    (Types.Ipv6 (some { p with required := some false })).presence = Presence.optional ∧
    (Types.Ipv6 (some { p with required := none })).presence = Presence.dflt ∧
    (Types.Binary (some { p with required := some true })).presence = Presence.required ∧
    (Types.Binary (some { p with required := some false })).presence = Presence.optional ∧
    (Types.Binary (some { p with required := none })).presence = Presence.dflt ∧
    (Types.Byte (some { p with required := some true })).presence = Presence.required ∧
    (Types.Byte (some { p with required := some false })).presence = Presence.optional ∧
    (Types.Byte (some { p with required := none })).presence = Presence.dflt ∧
    (Types.DateTime (some { p with required := some true })).presence = Presence.required ∧
    (Types.DateTime (some { p with required := some false })).presence = Presence.optional ∧
    (Types.DateTime (some { p with required := none })).presence = Presence.dflt ∧
    (Types.Date (some { p with required := some true })).presence = Presence.required ∧
    (Types.Date (some { p with required := some false })).presence = Presence.optional ∧
    (Types.Date (some { p with required := none })).presence = Presence.dflt ∧
    (Types.Boolean (some { p with required := some true })).presence = Presence.required ∧
    (Types.Boolean (some { p with required := some false })).presence = Presence.optional ∧
    (Types.Boolean (some { p with required := none })).presence = Presence.dflt ∧
    Except.map Schema.presence
      (Types.StringEnum (some { p with required := some true, values := some vs })) =
      Except.ok Presence.required ∧
    Except.map Schema.presence
      (Types.StringEnum (some { p with required := some false, values := some vs })) =
      Except.ok Presence.optional ∧
    Except.map Schema.presence
      (Types.StringEnum (some { p with required := none, values := some vs })) =
      Except.ok Presence.dflt ∧
    Except.map Schema.presence
      (Types.Object (some { p with required := some true, properties := some () })) =
      Except.ok Presence.required ∧
    Except.map Schema.presence
      (Types.Object (some { p with required := some false, properties := some () })) =
      Except.ok Presence.optional ∧
    Except.map Schema.presence
      (Types.Object (some { p with required := none, properties := some () })) =
      Except.ok Presence.dflt ∧
    Except.map Schema.presence
      (Types.Array (some { p with required := some true, arrayType := some () })) =
      Except.ok Presence.required ∧
    Except.map Schema.presence
      (Types.Array (some { p with required := some false, arrayType := some () })) =
      Except.ok Presence.optional ∧
    Except.map Schema.presence
      (Types.Array (some { p with required := none, arrayType := some () })) =
      Except.ok Presence.dflt ∧
    (Types.Number (some { p with required := some true })).presence = Presence.required ∧
    Types.Number (some { p with required := some false }) =
      Types.Number (some { p with required := none }) ∧
    (Types.Number (some { p with required := none })).presence = Presence.dflt ∧
    (Types.Integer (some { p with required := some true })).presence = Presence.required ∧
    Types.Integer (some { p with required := some false }) =
      Types.Integer (some { p with required := none }) ∧
    (Types.Integer (some { p with required := none })).presence = Presence.dflt ∧
    Except.map Schema.presence
      (Types.NumberEnum (some { p with required := some true, values := some vs })) =
      Except.ok Presence.required ∧
    Types.NumberEnum (some { p with required := some false, values := some vs }) =
      Types.NumberEnum (some { p with required := none, values := some vs }) ∧
    Except.map Schema.presence
      (Types.IntegerEnum (some { p with required := some true, values := some vs })) =
      Except.ok Presence.required ∧
    Types.IntegerEnum (some { p with required := some false, values := some vs }) =
      Types.IntegerEnum (some { p with required := none, values := some vs }) := by
  refine ⟨?_, ?_, ?_, ?_, ?_, ?_, ?_, ?_, ?_, ?_, ?_, ?_, ?_, ?_, ?_, ?_, ?_, ?_,
    ?_, ?_, ?_, ?_, ?_, ?_, ?_, ?_, ?_, ?_, ?_, ?_, ?_, ?_, ?_, ?_, ?_, ?_,
    ?_, ?_, ?_, ?_, ?_, ?_, ?_, ?_, ?_, ?_, ?_, ?_, ?_, ?_, ?_, ?_, ?_, ?_,
    ?_, ?_, ?_, ?_⟩ <;>
    simp [Types.String, Types.Email, Types.Password, Types.Uuid, Types.Uri,
      Types.Hostname, Types.Ipv4, Types.Ipv6, Types.Binary, Types.Byte,
      Types.DateTime, Types.Date, Types.Number, Types.Integer, Types.Boolean,
      Types.StringEnum, Types.NumberEnum, Types.IntegerEnum, Types.Object,
      Types.Array, joiObjectKeys, joiArrayItems, Joi.string, Joi.binary,
      Joi.number, Joi.boolean, Schema.description, Schema.required,
      Schema.optional, Schema.allow, Schema.min, Schema.max, Schema.default,
      Schema.example, Schema.email, Schema.uri, Schema.hostname, Schema.ip,
      Schema.uuid, Schema.isoDate, Schema.meta, Schema.valid, Schema.encoding,
      Schema.integer, Schema.strict, Except.map]

/-- Claim C9: for the String factory (and text shapes built on it, shown
here for Email, Uuid and StringEnum) and the Binary factory, a zero
`minLength` or `maxLength`, an empty-string description, or an
empty-string default value produce exactly the node obtained by omitting
the field, because those guards test truthiness, not presence. -/
theorem claim_C9_falsy_same_as_absent (p : Params Unit) (vs : List JsValue) :
    Types.String (some { p with minLength := some 0 }) =
      Types.String (some { p with minLength := none }) ∧
    Types.String (some { p with maxLength := some 0 }) =
      Types.String (some { p with maxLength := none }) ∧
    Types.String (some { p with description := some "" }) =
      Types.String (some { p with description := none }) ∧
    Types.String (some { p with default := some (JsValue.str "") }) =
      Types.String (some { p with default := none }) ∧
    Types.Binary (some { p with minLength := some 0 }) =
      Types.Binary (some { p with minLength := none }) ∧
    Types.Binary (some { p with maxLength := some 0 }) =
      Types.Binary (some { p with maxLength := none }) ∧
    Types.Binary (some { p with description := some "" }) =
      Types.Binary (some { p with description := none }) ∧
    Types.Binary (some { p with default := some (JsValue.str "") }) =
      Types.Binary (some { p with default := none }) ∧
    Types.Email (some { p with minLength := some 0 }) =
      Types.Email (some { p with minLength := none }) ∧
    Types.Email (some { p with default := some (JsValue.str "") }) =
      Types.Email (some { p with default := none }) ∧
    Types.Uuid (some { p with description := some "" }) =
      Types.Uuid (some { p with description := none }) ∧
    Types.StringEnum (some { p with maxLength := some 0, values := some vs }) =
      Types.StringEnum (some { p with maxLength := none, values := some vs }) := by
  refine ⟨?_, ?_, ?_, ?_, ?_, ?_, ?_, ?_, ?_, ?_, ?_, ?_⟩ <;>
    simp [Types.String, Types.Binary, Types.Email, Types.Uuid,
      Types.StringEnum, Joi.string, Joi.binary, Schema.email, Schema.uuid,
      Schema.meta, Schema.min, Schema.max, Schema.valid, JsValue.truthy]

/-- Claim C10: the Boolean factory honors a defined-but-falsy default or
example (`false`), and the Number and Integer factories honor `0`, because
their guards test the runtime type; String, Object and Array guard by
truthiness, so a falsy default or example there is dropped. -/
theorem claim_C10_falsy_default_honored (p : Params Unit) :
    (Types.Boolean (some { p with default := some (JsValue.bool false) })).defaultVal =
      some (JsValue.bool false) ∧
    (Types.Boolean (some { p with exampleV := some (JsValue.bool false) })).exampleVal =
      some (JsValue.bool false) ∧
    (Types.Number (some { p with default := some (JsValue.num 0) })).defaultVal =
      some (JsValue.num 0) ∧
    (Types.Number (some { p with exampleV := some (JsValue.num 0) })).exampleVal =
      some (JsValue.num 0) ∧
    (Types.Integer (some { p with default := some (JsValue.num 0) })).defaultVal =
      some (JsValue.num 0) ∧
    (Types.Integer (some { p with exampleV := some (JsValue.num 0) })).exampleVal =
      some (JsValue.num 0) ∧
    (Types.String (some { p with default := some (JsValue.str "") })).defaultVal =
      none ∧
    (Types.String (some { p with exampleV := some (JsValue.str "") })).exampleVal =
      none ∧
    Except.map Schema.defaultVal
      (Types.Object (some { p with default := some (JsValue.num 0),
                                   properties := some () })) =
      Except.ok none ∧
    Except.map Schema.exampleVal
      (Types.Object (some { p with exampleV := some (JsValue.bool false),
                                   properties := some () })) =
      Except.ok none ∧
    Except.map Schema.defaultVal
      (Types.Array (some { p with default := some (JsValue.str ""),
                                  arrayType := some () })) =
      Except.ok none ∧
    Except.map Schema.exampleVal
      (Types.Array (some { p with exampleV := some (JsValue.num 0),
                                  arrayType := some () })) =
      Except.ok none := by
  refine ⟨?_, ?_, ?_, ?_, ?_, ?_, ?_, ?_, ?_, ?_, ?_, ?_⟩ <;>
    simp [Types.Boolean, Types.Number, Types.Integer, Types.String,
      Types.Object, Types.Array, joiObjectKeys, joiArrayItems, Joi.boolean,
      Joi.number, Joi.string, Schema.strict, Schema.integer, Schema.default,
      Schema.example, JsValue.truthy, Except.map]

/-- Claim C5: the three enum factories throw when `values` is absent
(whether the whole record or just the field is missing), and Object and
Array throw when `properties` / `arrayType` is absent; with the mandatory
field present every such call succeeds, whatever the rest of the
configuration.  The remaining factories return a node on every input by
construction (they are total functions into `Schema`). -/
theorem claim_C5_mandatory_field_errors (p : Params Unit) (vs : List JsValue) :
    Types.StringEnum (none : Option (Params Unit)) =
      Except.error "TypeErrorReadValuesOfUndefined" ∧
    Types.StringEnum (some { p with values := none }) =
      Except.error "TypeErrorSpreadUndefined" ∧
    (∃ s, Types.StringEnum (some { p with values := some vs }) = Except.ok s) ∧
    Types.NumberEnum (none : Option (Params Unit)) =
      Except.error "TypeErrorReadValuesOfUndefined" ∧
    Types.NumberEnum (some { p with values := none }) =
      Except.error "TypeErrorSpreadUndefined" ∧
    (∃ s, Types.NumberEnum (some { p with values := some vs }) = Except.ok s) ∧
    Types.IntegerEnum (none : Option (Params Unit)) =
      Except.error "TypeErrorReadValuesOfUndefined" ∧
    Types.IntegerEnum (some { p with values := none }) =
      Except.error "TypeErrorSpreadUndefined" ∧
    (∃ s, Types.IntegerEnum (some { p with values := some vs }) = Except.ok s) ∧
    Types.Object (none : Option (Params Unit)) =
      Except.error "TypeErrorDestructureUndefined" ∧
    Types.Object (some { p with properties := none }) =
      Except.error "ObjectSchemaRequired" ∧
    (∃ s, Types.Object (some { p with properties := some () }) = Except.ok s) ∧
    Types.Array (none : Option (Params Unit)) =
      Except.error "TypeErrorDestructureUndefined" ∧
    Types.Array (some { p with arrayType := none }) =
      Except.error "ArrayItemSchemaRequired" ∧
    (∃ s, Types.Array (some { p with arrayType := some () }) = Except.ok s) := by
  repeat' apply And.intro
  all_goals
    simp [Types.StringEnum, Types.NumberEnum, Types.IntegerEnum,
      Types.Object, Types.Array, joiObjectKeys, joiArrayItems]

/-- Claim C6: with no configuration at all, every optional-parameter
factory returns the bare node carrying only its intrinsic constraints
(listed explicitly); an empty configuration record behaves like none; the
mandatory-field factories given only their mandatory field add nothing
else; and for the base builders, each absent optional field leaves the
corresponding node entry at its intrinsic value. -/
theorem claim_C6_absent_fields_add_nothing (p : Params Unit) (vs : List JsValue) :
    Types.String (none : Option (Params Unit)) = { kind := BaseKind.string } ∧
    Types.Email (none : Option (Params Unit)) =
      { kind := BaseKind.string, formats := [StrFormat.email] } ∧
    Types.Password (none : Option (Params Unit)) =
      { kind := BaseKind.string, metas := ["password"] } ∧
    Types.Uuid (none : Option (Params Unit)) =
      { kind := BaseKind.string, formats := [StrFormat.uuid "uuidv4"],
        metas := ["uuid"], lowerBound := some 36, upperBound := some 36 } ∧
    Types.Uri (none : Option (Params Unit)) =
      { kind := BaseKind.string, formats := [StrFormat.uri], metas := ["uri"] } ∧
    Types.Hostname (none : Option (Params Unit)) =
      { kind := BaseKind.string, formats := [StrFormat.hostname],
        metas := ["hostname"] } ∧
    Types.Ipv4 (none : Option (Params Unit)) =
      { kind := BaseKind.string, formats := [StrFormat.ip ["ipv4"]],
        metas := ["ipv4"], lowerBound := some 7, upperBound := some 15 } ∧
    Types.Ipv6 (none : Option (Params Unit)) =
      { kind := BaseKind.string, formats := [StrFormat.ip ["ipv6"]],
        metas := ["ipv6"], lowerBound := some 3, upperBound := some 45 } ∧
    Types.Binary (none : Option (Params Unit)) = { kind := BaseKind.binary } ∧
    Types.Byte (none : Option (Params Unit)) =
      { kind := BaseKind.binary, enc := some "base64" } ∧
    Types.DateTime (none : Option (Params Unit)) =
      { kind := BaseKind.string, formats := [StrFormat.isoDate],
        upperBound := some 24 } ∧
    Types.Date (none : Option (Params Unit)) =
      { kind := BaseKind.string, formats := [StrFormat.isoDate],
        metas := ["date"], lowerBound := some 10, upperBound := some 10 } ∧
    Types.Number (none : Option (Params Unit)) = { kind := BaseKind.number } ∧
    Types.Integer (none : Option (Params Unit)) =
      { kind := BaseKind.number, integerFlag := true } ∧
    Types.Boolean (none : Option (Params Unit)) =
      { kind := BaseKind.boolean, strictFlag := true } ∧
    Types.String (some ({} : Params Unit)) = Types.String none ∧
    Types.Email (some ({} : Params Unit)) = Types.Email none ∧
    Types.Password (some ({} : Params Unit)) = Types.Password none ∧
    Types.Uuid (some ({} : Params Unit)) = Types.Uuid none ∧
    Types.Uri (some ({} : Params Unit)) = Types.Uri none ∧
    Types.Hostname (some ({} : Params Unit)) = Types.Hostname none ∧
    Types.Ipv4 (some ({} : Params Unit)) = Types.Ipv4 none ∧
    Types.Ipv6 (some ({} : Params Unit)) = Types.Ipv6 none ∧
    Types.Binary (some ({} : Params Unit)) = Types.Binary none ∧
    Types.Byte (some ({} : Params Unit)) = Types.Byte none ∧
    Types.DateTime (some ({} : Params Unit)) = Types.DateTime none ∧
    Types.Date (some ({} : Params Unit)) = Types.Date none ∧
    Types.Number (some ({} : Params Unit)) = Types.Number none ∧
    Types.Integer (some ({} : Params Unit)) = Types.Integer none ∧
    Types.Boolean (some ({} : Params Unit)) = Types.Boolean none ∧
    Types.StringEnum (some ({ values := some vs } : Params Unit)) =
      Except.ok { kind := BaseKind.string, validVals := some vs } ∧
    Types.NumberEnum (some ({ values := some vs } : Params Unit)) =
      Except.ok { kind := BaseKind.number, validVals := some vs } ∧
    Types.IntegerEnum (some ({ values := some vs } : Params Unit)) =
      Except.ok { kind := BaseKind.number, integerFlag := true,
                  validVals := some vs } ∧
    Types.Object (some ({ properties := some () } : Params Unit)) =
      Except.ok { kind := BaseKind.object, keysMap := some () } ∧
    Types.Array (some ({ arrayType := some () } : Params Unit)) =
      Except.ok { kind := BaseKind.array, itemsOf := some () } ∧
    (Types.String (some { p with description := none })).descr = none ∧
    (Types.String (some { p with required := none })).presence = Presence.dflt ∧
    (Types.String (some { p with nullable := none })).allowNull = false ∧
    (Types.String (some { p with minLength := none })).lowerBound = none ∧
    (Types.String (some { p with maxLength := none })).upperBound = none ∧
    (Types.String (some { p with default := none })).defaultVal = none ∧
    (Types.String (some { p with exampleV := none })).exampleVal = none ∧
    (Types.Binary (some { p with description := none })).descr = none ∧
    (Types.Binary (some { p with required := none })).presence = Presence.dflt ∧
    (Types.Binary (some { p with nullable := none })).allowNull = false ∧
    (Types.Binary (some { p with minLength := none })).lowerBound = none ∧
    (Types.Binary (some { p with maxLength := none })).upperBound = none ∧
    (Types.Binary (some { p with default := none })).defaultVal = none ∧
    (Types.Binary (some { p with exampleV := none })).exampleVal = none ∧
    (Types.Number (some { p with description := none })).descr = none ∧
    (Types.Number (some { p with required := none })).presence = Presence.dflt ∧
    (Types.Number (some { p with nullable := none })).allowNull = false ∧
    (Types.Number (some { p with minValue := none })).lowerBound = none ∧
    (Types.Number (some { p with maxValue := none })).upperBound = none ∧
    (Types.Number (some { p with default := none })).defaultVal = none ∧
    (Types.Number (some { p with exampleV := none })).exampleVal = none ∧
    (Types.Boolean (some { p with description := none })).descr = none ∧
    (Types.Boolean (some { p with required := none })).presence = Presence.dflt ∧
    (Types.Boolean (some { p with nullable := none })).allowNull = false ∧
    (Types.Boolean (some { p with default := none })).defaultVal = none ∧
    (Types.Boolean (some { p with exampleV := none })).exampleVal = none ∧
    (Types.DateTime (some { p with description := none })).descr = none ∧
    (Types.DateTime (some { p with required := none })).presence = Presence.dflt ∧
    (Types.DateTime (some { p with nullable := none })).allowNull = false ∧
    Except.map Schema.descr
      (Types.Object (some { p with description := none, properties := some () })) =
      Except.ok none ∧
    Except.map Schema.presence
      (Types.Object (some { p with required := none, properties := some () })) =
      Except.ok Presence.dflt ∧
    Except.map Schema.allowNull
      (Types.Object (some { p with nullable := none, properties := some () })) =
      Except.ok false ∧
    Except.map Schema.defaultVal
      (Types.Object (some { p with default := none, properties := some () })) =
      Except.ok none ∧
    Except.map Schema.exampleVal
      (Types.Object (some { p with exampleV := none, properties := some () })) =
      Except.ok none ∧
    Except.map Schema.descr
      (Types.Array (some { p with description := none, arrayType := some () })) =
      Except.ok none ∧
    Except.map Schema.presence
      (Types.Array (some { p with required := none, arrayType := some () })) =
      Except.ok Presence.dflt ∧
    Except.map Schema.allowNull
      (Types.Array (some { p with nullable := none, arrayType := some () })) =
      Except.ok false ∧
    Except.map Schema.defaultVal
      (Types.Array (some { p with default := none, arrayType := some () })) =
      Except.ok none ∧
    Except.map Schema.exampleVal
      (Types.Array (some { p with exampleV := none, arrayType := some () })) =
      Except.ok none ∧
    Except.map Schema.lowerBound
      (Types.Array (some { p with minLength := none, arrayType := some () })) =
      Except.ok none ∧
    Except.map Schema.upperBound
      (Types.Array (some { p with maxLength := none, arrayType := some () })) =
      Except.ok none := by
  repeat' apply And.intro
  all_goals
    simp [Types.String, Types.Email, Types.Password, Types.Uuid, Types.Uri,
      Types.Hostname, Types.Ipv4, Types.Ipv6, Types.Binary, Types.Byte,
      Types.DateTime, Types.Date, Types.Number, Types.Integer, Types.Boolean,
      Types.StringEnum, Types.NumberEnum, Types.IntegerEnum, Types.Object,
      Types.Array, joiObjectKeys, joiArrayItems, Joi.string, Joi.binary,
      Joi.number, Joi.boolean, Schema.description, Schema.required,
      Schema.optional, Schema.allow, Schema.min, Schema.max, Schema.default,
      Schema.example, Schema.email, Schema.uri, Schema.hostname, Schema.ip,
      Schema.uuid, Schema.isoDate, Schema.meta, Schema.valid, Schema.encoding,
      Schema.integer, Schema.strict, Except.map]

/-- A concrete configuration record used to instantiate hypotheses. -/
def sampleParams : Params Unit :=
  { description := some "id", required := some true,
    values := some [JsValue.num 1], properties := some (),
    arrayType := some () }

/-- Claim C7: every factory is deterministic and referentially transparent
— two calls with identical input configurations return identical schema
nodes.  In the embedding each factory is a pure total function of its
input (the straight-line source rebinding only a local variable, with no
global state), so purity holds by construction and determinism is
congruence of application. -/
theorem claim_C7_factories_deterministic (p q : Option (Params Unit))
    (h : p = q) :
    Types.String p = Types.String q ∧
    Types.StringEnum p = Types.StringEnum q ∧
    Types.Email p = Types.Email q ∧
    Types.Password p = Types.Password q ∧
    Types.Uuid p = Types.Uuid q ∧
    Types.Uri p = Types.Uri q ∧
    Types.Hostname p = Types.Hostname q ∧
    Types.Ipv4 p = Types.Ipv4 q ∧
    Types.Ipv6 p = Types.Ipv6 q ∧
    Types.Binary p = Types.Binary q ∧
    Types.Byte p = Types.Byte q ∧
    Types.DateTime p = Types.DateTime q ∧
    Types.Date p = Types.Date q ∧
    Types.Number p = Types.Number q ∧
    Types.NumberEnum p = Types.NumberEnum q ∧
    Types.Integer p = Types.Integer q ∧
    Types.IntegerEnum p = Types.IntegerEnum q ∧
    Types.Boolean p = Types.Boolean q ∧
    Types.Object p = Types.Object q ∧
    Types.Array p = Types.Array q := by
  subst h
  repeat' apply And.intro
  all_goals rfl

/-- Witness for claim C7 at a concrete configuration. -/
theorem claim_C7_factories_deterministic_witness :
    some sampleParams = some sampleParams ∧
    (Types.String (some sampleParams) = Types.String (some sampleParams) ∧
    Types.StringEnum (some sampleParams) = Types.StringEnum (some sampleParams) ∧
    Types.Email (some sampleParams) = Types.Email (some sampleParams) ∧
    Types.Password (some sampleParams) = Types.Password (some sampleParams) ∧
    Types.Uuid (some sampleParams) = Types.Uuid (some sampleParams) ∧
    Types.Uri (some sampleParams) = Types.Uri (some sampleParams) ∧
    Types.Hostname (some sampleParams) = Types.Hostname (some sampleParams) ∧
    Types.Ipv4 (some sampleParams) = Types.Ipv4 (some sampleParams) ∧
    Types.Ipv6 (some sampleParams) = Types.Ipv6 (some sampleParams) ∧
    Types.Binary (some sampleParams) = Types.Binary (some sampleParams) ∧
    Types.Byte (some sampleParams) = Types.Byte (some sampleParams) ∧
    Types.DateTime (some sampleParams) = Types.DateTime (some sampleParams) ∧
    Types.Date (some sampleParams) = Types.Date (some sampleParams) ∧
    Types.Number (some sampleParams) = Types.Number (some sampleParams) ∧
    Types.NumberEnum (some sampleParams) = Types.NumberEnum (some sampleParams) ∧
    Types.Integer (some sampleParams) = Types.Integer (some sampleParams) ∧
    Types.IntegerEnum (some sampleParams) = Types.IntegerEnum (some sampleParams) ∧
    Types.Boolean (some sampleParams) = Types.Boolean (some sampleParams) ∧
    Types.Object (some sampleParams) = Types.Object (some sampleParams) ∧
    Types.Array (some sampleParams) = Types.Array (some sampleParams)) :=
  ⟨rfl, claim_C7_factories_deterministic (some sampleParams) (some sampleParams) rfl⟩
